import Mathlib

/-!
Shallow embedding of the ODLA dynamic-shape execution glue in
src/python/halo/odla_dbnet.py.  The native library behind the CDLL handle is
modelled as an oracle (`NativeLib`); the attributes of the Python object become a
`ModelState`; every native call of interest is recorded in a trace of `NCall`
events; Python runtime errors (IndexError on data[idx], AttributeError on a
missing attribute, NameError on the unbound loop variable vt, ValueError on a
negative ctypes array length) become an `Except PyError` result.
-/

namespace Odla

/-- A ctypes buffer: its allocation size in bytes (fixed when the array is
created and never resized) and its current byte contents. -/
structure CBuffer where
  byteLen : Nat
  content : List Nat
deriving DecidableEq, Repr

/-- Mirrors `class ValueShape(Structure)`: a c_int32 logical length `size` and
a fixed array of ten c_int64 dimensions (modelled as a length-10 list,
unused entries 0). -/
structure ValueShape where
  size : Int
  dims : List Int
deriving DecidableEq, Repr

/-- Mirrors `class ValueType(Structure)`: an element-type code and a shape. -/
structure ValueType where
  element_type : Int
  shape : ValueShape
deriving DecidableEq, Repr

/-- Mirrors the element-count loop in Execute:
`n = 1; for r in range(0, vs.size): n *= vs.dims[r]` — the product of the
first `size` dimensions (empty product 1; a non-positive size gives an empty
range). -/
def elemCount (vs : ValueShape) : Int :=
  (vs.dims.take vs.size.toNat).foldl (fun n d => n * d) 1

/-- The module-level configuration constants of odla_dbnet.py, lines 26-46. -/
def ODLA_DYNAMIC_BATCH : Nat := 0

def ODLA_MIN_BATCH_SIZE : Nat := 1

def ODLA_MAX_BATCH_SIZE : Nat := 2

def ODLA_OPT_BATCH_SIZE : Nat := 3

def ODLA_RUN_BATCH_SIZE : Nat := 4

def ODLA_DYNAMIC_SHAPE : Nat := 5

def ODLA_MIN_SHAPE : Nat := 6

def ODLA_MAX_SHAPE : Nat := 7

def ODLA_OPT_SHAPE : Nat := 8

def ODLA_BF16_MODE : Nat := 9

def ODLA_FP16_MODE : Nat := 10

def ODLA_USE_SIM_MODE : Nat := 11

def ODLA_PROCESSOR_NUM : Nat := 12

def ODLA_BATCHES_PER_STEP : Nat := 13

def ODLA_USE_DATA_TYPE : Nat := 14

def ODLA_LOAD_ENGINE_MODE : Nat := 15

def ODLA_USE_DLA_CORE : Nat := 16

def ODLA_QUANT_TABLE : Nat := 17

def ODLA_QUANT_TABLE_SIZE : Nat := 18

def ODLA_ENABLE_ENGINE_CACHE : Nat := 19

def ODLA_CACHE_DIR : Nat := 20

/-- The shape-range and runtime-shape constants hard-coded in Execute
(odla_dbnet.py lines 140-154); `dims_array(1, 3, 1, 1)` zero-fills the
remaining six of the ten c_int64 slots. -/
def input0_min_shape : ValueShape := ⟨4, [1, 3, 1, 1, 0, 0, 0, 0, 0, 0]⟩

def input0_max_shape : ValueShape := ⟨4, [1, 3, 1000, 2000, 0, 0, 0, 0, 0, 0]⟩

def input0_opt_shape : ValueShape := ⟨4, [1, 3, 960, 1280, 0, 0, 0, 0, 0, 0]⟩

def input0_real_shape : ValueShape := ⟨4, [1, 3, 960, 1280, 0, 0, 0, 0, 0, 0]⟩

/-- Dimension-wise comparison of the first `rank` dimensions of two shapes. -/
def shapeLeOn (a b : ValueShape) (rank : Nat) : Bool :=
  (List.range rank).all (fun i => decide (a.dims.getD i 0 ≤ b.dims.getD i 0))

/-- Python runtime errors the glue can raise. -/
inductive PyError where
  | indexError
  | attributeError
  | nameError
  | valueError
deriving DecidableEq, Repr

/-- A Python attribute slot that may not exist yet (reading a missing
attribute raises AttributeError) or hold a c_void_p handle (handle 0 is
falsy, like c_void_p(0)). -/
inductive PyAttr where
  | missing
  | handle (v : Nat)
deriving DecidableEq, Repr

/-- Native calls recorded by the model (creation/destruction, item and shape
setting, argument/output binding, and the execute call itself). -/
inductive NCall where
  | createComputation (h : Nat)
  | setComputationItem (item : Nat)
  | setValueShapeInfo (value : Nat) (item : Nat) (vs : ValueShape)
  | createContext (h : Nat)
  | setRuntimeShape (value : Nat) (vs : ValueShape)
  | bindToArgument (value : Nat) (dataIdx : Nat)
  | bindToOutput (value : Nat)
  | executeComputation
  | destroyContext (h : Nat)
  | destroyComputation (h : Nat)
deriving DecidableEq, Repr

/-- The native .so behind the CDLL handle, modelled as a deterministic oracle:
handles and metadata it reports, and the bytes `odla_ExecuteComputation`
writes into the buffer bound to each output (a function of the input
buffers). -/
structure NativeLib where
  compHandle : Nat
  ctxHandle : Nat → Nat
  nrArgs : Nat
  nrOutputs : Nat
  argHandle : Nat → Nat
  argType : Nat → ValueType
  outHandle : Nat → Nat
  outRuntimeShape : Nat → ValueShape
  outType : Nat → ValueType
  run : List CBuffer → Nat → List Nat

/-- Attributes of the ODLAModel object.  `nr_args`, `nr_outputs`, `in_vals`
and `out_vals` do not exist before Load/Execute set them; every modelled
scenario calls Load first, so they carry neutral defaults rather than a
missing-attribute state.  `ctxCount` counts odla_CreateContext calls so the
oracle can hand out per-creation handles. -/
structure ModelState where
  h : Bool
  comp : PyAttr
  ctx : PyAttr
  buffers : List CBuffer
  nr_args : Nat
  nr_outputs : Nat
  in_vals : List (Nat × ValueType)
  out_vals : List (Nat × ValueType × Int)
  ctxCount : Nat
deriving DecidableEq, Repr

/-- `__init__`: only `h` (None), `buffers` ([]) exist; `comp` and `ctx` are
missing attributes. -/
def initModel : ModelState :=
  { h := false, comp := .missing, ctx := .missing, buffers := [],
    nr_args := 0, nr_outputs := 0, in_vals := [], out_vals := [], ctxCount := 0 }

/-- `Load`: loads the CDLL, creates the computation and reads the argument
and output counts (both reads go through the same c_int32 cell `n`). -/
def Load (lib : NativeLib) (s : ModelState) : List NCall × ModelState :=
  ([NCall.createComputation lib.compHandle],
   { s with h := true,
            comp := PyAttr.handle lib.compHandle,
            nr_args := lib.nrArgs,
            nr_outputs := lib.nrOutputs })

/-- The `in_vals` gathering loop of Execute.  The fold also returns the final
value of the loop variable `vt`, which Python leaves in scope after the loop
(none when the loop never ran). -/
def gatherInVals (lib : NativeLib) (nrArgs : Nat) :
    List (Nat × ValueType) × Option ValueType :=
  (List.range nrArgs).foldl
    (fun acc idx =>
      let vt := lib.argType idx
      (acc.1 ++ [(lib.argHandle idx, vt)], some vt))
    ([], none)

/-- The input-binding loop of Execute:
`for idx, v in enumerate(self.in_vals): odla_BindToArgument(v[0], data[idx], ctx)`.
`data[idx]` is read without any length check; an index past the end raises
IndexError. -/
def bindInputs : List (Nat × ValueType) → Nat → List CBuffer →
    List NCall × Except PyError Unit
  | [], _, _ => ([], .ok ())
  | v :: rest, idx, data =>
    match data[idx]? with
    | none => ([], .error .indexError)
    | some _ =>
      let r := bindInputs rest (idx + 1) data
      (NCall.bindToArgument v.1 idx :: r.1, r.2)

/-- `(c_float * n)()`: a zero-initialised array of n c_floats, 4 bytes each. -/
def allocFloatBuffer (n : Nat) : CBuffer :=
  { byteLen := 4 * n, content := List.replicate (4 * n) 0 }

/-- The output loop of Execute: per output index, get the output handle, read
its runtime shape from the context, take the product of its dimensions,
append `(out, vt, n)` to out_vals — where `vt` is the stale loop variable
from the input loop (NameError if it was never assigned) — allocate a c_float
array of n elements (ValueError if n is negative) and bind it to the
output. -/
def bindOutputs (lib : NativeLib) (vtStale : Option ValueType) :
    List Nat →
    List NCall × Except PyError (List (Nat × ValueType × Int) × List CBuffer)
  | [] => ([], .ok ([], []))
  | idx :: rest =>
    let out := lib.outHandle idx
    let vs := lib.outRuntimeShape idx
    let n := elemCount vs
    match vtStale with
    | none => ([], .error .nameError)
    | some vt =>
      if n < 0 then ([], .error .valueError)
      else
        let r := bindOutputs lib vtStale rest
        (NCall.bindToOutput out :: r.1,
         r.2.map (fun p =>
           ((out, vt, n) :: p.1, allocFloatBuffer n.toNat :: p.2)))

/-- `odla_ExecuteComputation` fills each buffer bound in this context with
the native result for its output index (a function of the input buffers);
the allocation length of a ctypes buffer never changes. -/
def fillOutputs (lib : NativeLib) (data : List CBuffer) :
    List CBuffer → Nat → List CBuffer
  | [], _ => []
  | b :: rest, i =>
    { b with content := lib.run data i } :: fillOutputs lib data rest (i + 1)

/-- `Execute(self, data)`, odla_dbnet.py lines 131-192, step for step:
set the computation to dynamic-shape mode and register the hard-coded
min/max/opt shape range on input 0; create a fresh context (overwriting
`self.ctx`); set the hard-coded runtime shape; gather `in_vals` and bind
`data[idx]` to argument idx for each idx; per output, read the runtime shape,
store `(out, vt, n)` with the stale input-loop `vt`, allocate and bind an
n-element c_float buffer, appending it to the never-cleared `self.buffers`;
finally call the native execute and return `self.buffers`. -/
def Execute (lib : NativeLib) (s : ModelState) (data : List CBuffer) :
    List NCall × Except PyError (ModelState × List CBuffer) :=
  let input0_v := lib.argHandle 0
  let ctxh := lib.ctxHandle s.ctxCount
  let g := gatherInVals lib s.nr_args
  let pre : List NCall :=
    [NCall.setComputationItem ODLA_DYNAMIC_SHAPE,
     NCall.setValueShapeInfo input0_v ODLA_MIN_SHAPE input0_min_shape,
     NCall.setValueShapeInfo input0_v ODLA_MAX_SHAPE input0_max_shape,
     NCall.setValueShapeInfo input0_v ODLA_OPT_SHAPE input0_opt_shape,
     NCall.createContext ctxh,
     NCall.setRuntimeShape input0_v input0_real_shape]
  let bi := bindInputs g.1 0 data
  match bi.2 with
  | .error e => (pre ++ bi.1, .error e)
  | .ok _ =>
    let bo := bindOutputs lib g.2 (List.range s.nr_outputs)
    match bo.2 with
    | .error e => (pre ++ bi.1 ++ bo.1, .error e)
    | .ok p =>
      let filled := fillOutputs lib data p.2 0
      let bufs := s.buffers ++ filled
      let s3 := { s with
        ctx := PyAttr.handle ctxh,
        ctxCount := s.ctxCount + 1,
        in_vals := g.1,
        out_vals := p.1,
        buffers := bufs }
      (pre ++ bi.1 ++ bo.1 ++ [NCall.executeComputation], .ok (s3, bufs))

/-- `__del__`: `if self.h: if self.ctx: destroy ctx; if self.comp: destroy
comp`.  Reading `self.ctx` (or `self.comp`) when the attribute was never
assigned raises AttributeError; a c_void_p(0) handle is falsy and skipped. -/
def del (s : ModelState) : List NCall × Option PyError :=
  if s.h then
    match s.ctx with
    | PyAttr.missing => ([], some PyError.attributeError)
    | PyAttr.handle c =>
      let tr1 := if c != 0 then [NCall.destroyContext c] else []
      match s.comp with
      | PyAttr.missing => (tr1, some PyError.attributeError)
      | PyAttr.handle cp =>
        (tr1 ++ (if cp != 0 then [NCall.destroyComputation cp] else []), none)
  else ([], none)

/-- The configuration constants in the order they are listed in
odla_dbnet.py lines 26-46. -/
def configOptionCodes : List Nat :=
  [ODLA_DYNAMIC_BATCH, ODLA_MIN_BATCH_SIZE, ODLA_MAX_BATCH_SIZE, ODLA_OPT_BATCH_SIZE,
   ODLA_RUN_BATCH_SIZE, ODLA_DYNAMIC_SHAPE, ODLA_MIN_SHAPE, ODLA_MAX_SHAPE,
   ODLA_OPT_SHAPE, ODLA_BF16_MODE, ODLA_FP16_MODE, ODLA_USE_SIM_MODE,
   ODLA_PROCESSOR_NUM, ODLA_BATCHES_PER_STEP, ODLA_USE_DATA_TYPE,
   ODLA_LOAD_ENGINE_MODE, ODLA_USE_DLA_CORE, ODLA_QUANT_TABLE,
   ODLA_QUANT_TABLE_SIZE, ODLA_ENABLE_ENGINE_CACHE, ODLA_CACHE_DIR]

/-- Modelled from the spec: byte sizes for the element data types named by the
data model of the spec (float32, int64); the native element-type encoding is not
under src, so float32 is taken as code 1 and int64 as code 2 here. -/
def elementSize (t : Int) : Nat :=
  if t = 2 then 8 else 4

/-- Modelled from the spec: the binding state of the native ExecutionContext
(which arguments and outputs have a bound buffer, and the bytes of the bound
output buffers); the native runtime implementing the BuffersBound state
machine is not under src. -/
structure SpecContext where
  nrArgs : Nat
  nrOutputs : Nat
  argBound : Nat → Bool
  outBound : Nat → Bool
  outBuffers : Nat → List Nat

/-- Modelled from the spec: the error taxonomy entry for out-of-order
execution. -/
inductive EngineError where
  | NotReady
deriving DecidableEq, Repr

/-- A context is fully bound when every declared argument and output has a
bound buffer. -/
def fullyBound (c : SpecContext) : Bool :=
  ((List.range c.nrArgs).all c.argBound) && ((List.range c.nrOutputs).all c.outBound)

/-- Outcome of the spec-modelled executor: whether the native runtime was
invoked, the reported result, and the context afterwards. -/
structure SpecRunOutcome where
  nativeInvoked : Bool
  result : Except EngineError Unit
  ctx : SpecContext

/-- Modelled from the spec: Executor.Execute requires the context to be in
state BuffersBound for all required arguments and outputs; violating this
fails with NotReady without invoking the native runtime, so no output buffer
is written. -/
def specExecute (run : Nat → List Nat) (c : SpecContext) : SpecRunOutcome :=
  if fullyBound c then
    { nativeInvoked := true, result := .ok (),
      ctx := { c with outBuffers := fun j => run j } }
  else
    { nativeInvoked := false, result := .error .NotReady, ctx := c }

/-- Pads four leading dimensions with the six zero slots of the ten-slot
c_int64 array. -/
def padded (a b c d : Int) : List Int := [a, b, c, d, 0, 0, 0, 0, 0, 0]

/-- A concrete one-argument, one-output native library: the declared input
ValueType has shape [1,3,960,1280] while the runtime shape of the output resolves
to [5,7] (35 elements). -/
def libA : NativeLib :=
  { compHandle := 100
    ctxHandle := fun k => 200 + k
    nrArgs := 1
    nrOutputs := 1
    argHandle := fun _ => 11
    argType := fun _ => ⟨1, ⟨4, padded 1 3 960 1280⟩⟩
    outHandle := fun _ => 21
    outRuntimeShape := fun _ => ⟨2, padded 5 7 0 0⟩
    outType := fun _ => ⟨1, ⟨2, padded 5 7 0 0⟩⟩
    run := fun _ _ => [1, 2, 3, 4] }

/-- One input buffer (contents irrelevant to the modelled control flow). -/
def dataA : List CBuffer := [⟨0, []⟩]

/-- The model right after `Load` on libA. -/
def loadedA : ModelState := (Load libA initModel).2

/-- Result of a second `Execute` on the same object (the state threaded from
the first call). -/
def step2A : Option (ModelState × List CBuffer) :=
  match (Execute libA loadedA dataA).2 with
  | .ok p => (Execute libA p.1 dataA).2.toOption
  | .error _ => none

/-- A concrete library whose single output is declared int64 (code 2) with
runtime shape [2] — two elements of an eight-byte type. -/
def libB : NativeLib :=
  { compHandle := 100
    ctxHandle := fun k => 200 + k
    nrArgs := 1
    nrOutputs := 1
    argHandle := fun _ => 11
    argType := fun _ => ⟨1, ⟨4, padded 1 3 960 1280⟩⟩
    outHandle := fun _ => 21
    outRuntimeShape := fun _ => ⟨1, padded 2 0 0 0⟩
    outType := fun _ => ⟨2, ⟨1, padded 2 0 0 0⟩⟩
    run := fun _ _ => [1, 2, 3, 4] }

/-- The model right after `Load` on libB. -/
def loadedB : ModelState := (Load libB initModel).2

/-- A concrete library whose single output resolves to a rank-0 (size 0)
runtime shape. -/
def libC : NativeLib :=
  { compHandle := 100
    ctxHandle := fun k => 200 + k
    nrArgs := 1
    nrOutputs := 1
    argHandle := fun _ => 11
    argType := fun _ => ⟨1, ⟨4, padded 1 3 960 1280⟩⟩
    outHandle := fun _ => 21
    outRuntimeShape := fun _ => ⟨0, padded 0 0 0 0⟩
    outType := fun _ => ⟨1, ⟨0, padded 0 0 0 0⟩⟩
    run := fun _ _ => [9, 9, 9, 9] }

/-- The model right after `Load` on libC. -/
def loadedC : ModelState := (Load libC initModel).2

/-- Recognisers for context creation and destruction events. -/
def isCreateCtx : NCall → Bool
  | .createContext _ => true
  | _ => false

def isDestroyCtx : NCall → Bool
  | .destroyContext _ => true
  | _ => false

/-- The native-call trace of the full lifecycle Load, Execute, Execute,
`__del__` on libA. -/
def c4traceA : Option (List NCall) :=
  let l := Load libA initModel
  match Execute libA l.2 dataA with
  | (t1, .ok p1) =>
    match Execute libA p1.1 dataA with
    | (t2, .ok p2) => some (l.1 ++ t1 ++ t2 ++ (del p2.1).1)
    | _ => none
  | _ => none

/-- A spec-modelled context with its single output unbound. -/
def specCtxW : SpecContext :=
  { nrArgs := 1, nrOutputs := 1,
    argBound := fun _ => true, outBound := fun _ => false,
    outBuffers := fun _ => [] }

/-- The model state after the first Execute on a freshly loaded libA. -/
def execStateA1 : ModelState :=
  { h := true, comp := PyAttr.handle 100, ctx := PyAttr.handle 200,
    buffers := [⟨140, [1, 2, 3, 4]⟩],
    nr_args := 1, nr_outputs := 1,
    in_vals := [(11, ⟨1, ⟨4, padded 1 3 960 1280⟩⟩)],
    out_vals := [(21, ⟨1, ⟨4, padded 1 3 960 1280⟩⟩, 35)],
    ctxCount := 1 }

/-- The model state after the second Execute on the same libA object. -/
def execStateA2 : ModelState :=
  { h := true, comp := PyAttr.handle 100, ctx := PyAttr.handle 201,
    buffers := [⟨140, [1, 2, 3, 4]⟩, ⟨140, [1, 2, 3, 4]⟩],
    nr_args := 1, nr_outputs := 1,
    in_vals := [(11, ⟨1, ⟨4, padded 1 3 960 1280⟩⟩)],
    out_vals := [(21, ⟨1, ⟨4, padded 1 3 960 1280⟩⟩, 35)],
    ctxCount := 2 }

/-- The in_vals loop gathers one handle/type pair per argument index and
leaves the ValueType of the last argument in the loop variable. -/
theorem gatherInVals_eq (lib : NativeLib) (n : Nat) :
    gatherInVals lib n =
      ((List.range n).map (fun i => (lib.argHandle i, lib.argType i)),
       if n = 0 then none else some (lib.argType (n - 1))) := by
  induction n with
  | zero => rfl
  | succ m ih =>
    unfold gatherInVals at ih ⊢
    rw [List.range_succ, List.foldl_append, ih]
    simp [List.range_succ]

/-- When the data list is long enough, the binding loop binds every argument
in order and succeeds. -/
theorem bindInputs_ok (g : Nat → Nat × ValueType) (data : List CBuffer) :
    ∀ (n a : Nat), a + n ≤ data.length →
    bindInputs ((List.range' a n).map g) a data =
      ((List.range' a n).map (fun i => NCall.bindToArgument (g i).1 i), .ok ()) := by
  intro n
  induction n with
  | zero => intro a h; rfl
  | succ m ih =>
    intro a h
    have ha : a < data.length := by omega
    rw [List.range'_succ]
    simp only [List.map_cons, bindInputs, List.getElem?_eq_getElem ha]
    rw [ih (a + 1) (by omega)]

/-- When the data list is too short, the binding loop raises IndexError. -/
theorem bindInputs_short (data : List CBuffer) :
    ∀ (l : List (Nat × ValueType)) (idx : Nat), idx ≤ data.length →
    data.length < idx + l.length →
    (bindInputs l idx data).2 = .error .indexError := by
  intro l
  induction l with
  | nil => intro idx h1 h2; simp only [List.length_nil, Nat.add_zero] at h2; omega
  | cons v rest ih =>
    intro idx h1 h2
    unfold bindInputs
    cases hd : data[idx]? with
    | none => rfl
    | some b =>
      have hlt : idx < data.length := by
        by_contra hge
        push_neg at hge
        rw [List.getElem?_eq_none hge] at hd
        cases hd
      simp only []
      exact ih (idx + 1) (by omega) (by simp only [List.length_cons] at h2; omega)

/-- The trace of the binding loop consists of bindToArgument events only. -/
theorem bindInputs_trace_only_binds (data : List CBuffer) :
    ∀ (l : List (Nat × ValueType)) (idx : Nat) (c : NCall),
    c ∈ (bindInputs l idx data).1 → ∃ v i, c = NCall.bindToArgument v i := by
  intro l
  induction l with
  | nil => intro idx c hc; cases hc
  | cons v rest ih =>
    intro idx c hc
    unfold bindInputs at hc
    cases hd : data[idx]? with
    | none => rw [hd] at hc; cases hc
    | some b =>
      rw [hd] at hc
      simp only [List.mem_cons] at hc
      cases hc with
      | inl h => exact ⟨v.1, idx, h⟩
      | inr h => exact ih (idx + 1) c h

/-- With a stale ValueType available and no negative element count, the
output loop stores one (handle, stale vt, element count) triple per output
and allocates one c_float buffer per output. -/
theorem bindOutputs_ok (lib : NativeLib) (vt : ValueType) :
    ∀ (l : List Nat), (∀ i ∈ l, 0 ≤ elemCount (lib.outRuntimeShape i)) →
    bindOutputs lib (some vt) l =
      (l.map (fun i => NCall.bindToOutput (lib.outHandle i)),
       .ok (l.map (fun i => (lib.outHandle i, vt, elemCount (lib.outRuntimeShape i))),
            l.map (fun i => allocFloatBuffer (elemCount (lib.outRuntimeShape i)).toNat))) := by
  intro l
  induction l with
  | nil => intro hpos; rfl
  | cons i rest ih =>
    intro hpos
    have hi : 0 ≤ elemCount (lib.outRuntimeShape i) := hpos i (List.mem_cons_self i rest)
    have hrest : ∀ j ∈ rest, 0 ≤ elemCount (lib.outRuntimeShape j) :=
      fun j hj => hpos j (List.mem_cons_of_mem i hj)
    unfold bindOutputs
    simp only [ih hrest, if_neg (not_lt.mpr hi), List.map_cons, Except.map]

/-- The native execute call rewrites the content of each freshly bound
buffer with the run output for its index, keeping allocation sizes. -/
theorem fillOutputs_map (lib : NativeLib) (data : List CBuffer) (g : Nat → CBuffer) :
    ∀ (n a : Nat),
    fillOutputs lib data ((List.range' a n).map g) a =
      (List.range' a n).map (fun i => { g i with content := lib.run data i }) := by
  intro n
  induction n with
  | zero => intro a; rfl
  | succ m ih =>
    intro a
    rw [List.range'_succ]
    simp only [List.map_cons, fillOutputs]
    rw [ih (a + 1)]

/-- Full characterisation of a successful Execute: with at least one
argument, enough input buffers, and no negative output element count, it
returns the old buffers followed by one filled c_float buffer per output,
stores the stale input ValueType in every out_vals entry, and bumps the
context counter. -/
theorem execute_ok (lib : NativeLib) (s : ModelState) (data : List CBuffer)
    (h1 : 0 < s.nr_args) (h2 : s.nr_args ≤ data.length)
    (h3 : ∀ i, i < s.nr_outputs → 0 ≤ elemCount (lib.outRuntimeShape i)) :
    (Execute lib s data).2 = .ok
      ({ s with
          ctx := PyAttr.handle (lib.ctxHandle s.ctxCount),
          ctxCount := s.ctxCount + 1,
          in_vals := (List.range s.nr_args).map (fun i => (lib.argHandle i, lib.argType i)),
          out_vals := (List.range s.nr_outputs).map
            (fun i => (lib.outHandle i, lib.argType (s.nr_args - 1),
                       elemCount (lib.outRuntimeShape i))),
          buffers := s.buffers ++ (List.range s.nr_outputs).map
            (fun i => { byteLen := 4 * (elemCount (lib.outRuntimeShape i)).toNat,
                        content := lib.run data i }) },
       s.buffers ++ (List.range s.nr_outputs).map
         (fun i => { byteLen := 4 * (elemCount (lib.outRuntimeShape i)).toNat,
                     content := lib.run data i })) := by
  have hbi := bindInputs_ok (fun i => (lib.argHandle i, lib.argType i)) data s.nr_args 0
    (by omega)
  rw [← List.range_eq_range'] at hbi
  simp only [] at hbi
  have hbo := bindOutputs_ok lib (lib.argType (s.nr_args - 1)) (List.range s.nr_outputs)
    (fun i hi => h3 i (List.mem_range.mp hi))
  have hfill := fillOutputs_map lib data
    (fun i => allocFloatBuffer (elemCount (lib.outRuntimeShape i)).toNat) s.nr_outputs 0
  rw [← List.range_eq_range'] at hfill
  simp only [allocFloatBuffer] at hfill
  unfold Execute
  simp only [gatherInVals_eq, if_neg (Nat.pos_iff_ne_zero.mp h1), hbi, hbo,
    allocFloatBuffer, hfill]



/-- Claim C8: the recognized configuration options are encoded as the
consecutive, pairwise-distinct integers 0 through 20 in the listed order. -/
theorem c8_config_option_encoding :
    configOptionCodes = List.range 21 ∧ configOptionCodes.Nodup := by
  decide

/-- Claim C1 (failing evaluation): on a model whose input argument has
declared shape [1,3,960,1280] and whose output resolves to runtime shape
[5,7], Execute stores the ValueType of the input argument in the metadata
record of the output, and the shape of that ValueType differs from the
resolved runtime shape of the output itself. -/
theorem c1_out_vals_pair_stale_input_metadata :
    (Execute libA loadedA dataA).2.toOption.map (fun p => p.1.out_vals) =
      some [(libA.outHandle 0, libA.argType 0, elemCount (libA.outRuntimeShape 0))] ∧
    (libA.argType 0).shape ≠ libA.outRuntimeShape 0 := by
  exact ⟨rfl, by decide⟩

/-- Claim C2 (failing evaluation): on a model whose single output is
declared int64 with resolved runtime shape [2], Execute allocates and binds
an 8-byte buffer (two c_floats), while the formula of the claim — element
count times the size of the declared element type — demands 16 bytes. -/
theorem c2_output_buffer_ignores_declared_element_size :
    (Execute libB loadedB dataA).2.toOption.map (fun p => p.2.map (fun b => b.byteLen)) =
      some [8] ∧
    (elemCount (libB.outRuntimeShape 0)).toNat *
      elementSize (libB.outType 0).element_type = 16 ∧
    (8 : Nat) ≠ 16 := by
  exact ⟨rfl, by decide, by decide⟩

/-- Claim C3 (counterexample): on a computation with exactly one declared
output, the second invocation of Execute returns two buffers, not one per
declared output. -/
theorem c3_counterexample_second_invocation_buffer_count :
    step2A.map (fun p => p.2.length) = some 2 ∧ libA.nrOutputs = 1 ∧
    (2 : Nat) ≠ 1 := by
  exact ⟨rfl, rfl, by decide⟩

/-- Claim C3 (amended): whenever a freshly loaded model executes twice, the
first invocation returns exactly one buffer per declared output, and the
second returns all previously returned buffers followed by exactly one fresh
buffer per declared output (the buffers list accumulates across
invocations). -/
theorem c3_buffers_accumulate_per_invocation (lib : NativeLib) (data : List CBuffer)
    (s1 : ModelState) (bufs1 : List CBuffer) (s2 : ModelState) (bufs2 : List CBuffer)
    (h1 : 0 < lib.nrArgs) (h2 : lib.nrArgs ≤ data.length)
    (h3 : ∀ i, i < lib.nrOutputs → 0 ≤ elemCount (lib.outRuntimeShape i))
    (r1 : (Execute lib (Load lib initModel).2 data).2 = .ok (s1, bufs1))
    (r2 : (Execute lib s1 data).2 = .ok (s2, bufs2)) :
    bufs1.length = lib.nrOutputs ∧
    ∃ fresh, bufs2 = bufs1 ++ fresh ∧ fresh.length = lib.nrOutputs := by
  have e1 := execute_ok lib (Load lib initModel).2 data h1 h2 h3
  rw [e1] at r1
  injection r1 with hp
  injection hp with hs hb
  subst hs
  subst hb
  rw [execute_ok lib _ data h1 h2 h3] at r2
  injection r2 with hp2
  injection hp2 with hs2 hb2
  subst hs2
  subst hb2
  refine ⟨by simp [Load, initModel],
    (List.range lib.nrOutputs).map
      (fun i => { byteLen := 4 * (elemCount (lib.outRuntimeShape i)).toNat,
                  content := lib.run data i }), ?_, by simp⟩
  simp [Load, initModel]

/-- Claim C6: whenever a freshly loaded computation executes twice with the
same input data (a fresh native context is created inside each invocation),
the outputs are byte-identical: the second returned buffer list is the first
one followed by an identical copy of it. -/
theorem c6_execute_deterministic (lib : NativeLib) (data : List CBuffer)
    (s1 : ModelState) (bufs1 : List CBuffer) (s2 : ModelState) (bufs2 : List CBuffer)
    (h1 : 0 < lib.nrArgs) (h2 : lib.nrArgs ≤ data.length)
    (h3 : ∀ i, i < lib.nrOutputs → 0 ≤ elemCount (lib.outRuntimeShape i))
    (r1 : (Execute lib (Load lib initModel).2 data).2 = .ok (s1, bufs1))
    (r2 : (Execute lib s1 data).2 = .ok (s2, bufs2)) :
    bufs2 = bufs1 ++ bufs1 := by
  have e1 := execute_ok lib (Load lib initModel).2 data h1 h2 h3
  rw [e1] at r1
  injection r1 with hp
  injection hp with hs hb
  subst hs
  subst hb
  rw [execute_ok lib _ data h1 h2 h3] at r2
  injection r2 with hp2
  injection hp2 with hs2 hb2
  subst hs2
  subst hb2
  simp [Load, initModel]


/-- Claim C4 (failing evaluation): over the lifecycle Load, Execute,
Execute, destructor, two native contexts are created but only one is
destroyed (the first context handle is leaked); and running the destructor
after Load alone raises AttributeError before destroying anything, so the
computation handle is never released. -/
theorem c4_context_leak_and_destructor_crash :
    c4traceA.map (fun t => ((t.filter isCreateCtx).length, (t.filter isDestroyCtx).length)) =
      some (2, 1) ∧
    (del loadedA).2 = some PyError.attributeError ∧
    (del loadedA).1 = [] := by
  exact ⟨by decide, by decide, by decide⟩

/-- Helper for C5: every Execute invocation starts by switching the
computation to dynamic-shape mode, registering the hard-coded min/max/opt
range on argument 0, creating the context, and setting the hard-coded
runtime shape, in that order. -/
theorem execute_trace_head (lib : NativeLib) (s : ModelState) (data : List CBuffer) :
    ∃ rest, (Execute lib s data).1 =
      NCall.setComputationItem ODLA_DYNAMIC_SHAPE ::
      NCall.setValueShapeInfo (lib.argHandle 0) ODLA_MIN_SHAPE input0_min_shape ::
      NCall.setValueShapeInfo (lib.argHandle 0) ODLA_MAX_SHAPE input0_max_shape ::
      NCall.setValueShapeInfo (lib.argHandle 0) ODLA_OPT_SHAPE input0_opt_shape ::
      NCall.createContext (lib.ctxHandle s.ctxCount) ::
      NCall.setRuntimeShape (lib.argHandle 0) input0_real_shape :: rest := by
  unfold Execute
  cases hbi : (bindInputs (gatherInVals lib s.nr_args).1 0 data).2 with
  | error e =>
    refine ⟨(bindInputs (gatherInVals lib s.nr_args).1 0 data).1, ?_⟩
    simp [hbi]
  | ok u =>
    cases hbo : (bindOutputs lib (gatherInVals lib s.nr_args).2
        (List.range s.nr_outputs)).2 with
    | error e =>
      refine ⟨(bindInputs (gatherInVals lib s.nr_args).1 0 data).1 ++
        (bindOutputs lib (gatherInVals lib s.nr_args).2 (List.range s.nr_outputs)).1, ?_⟩
      simp [hbi, hbo]
    | ok p =>
      refine ⟨(bindInputs (gatherInVals lib s.nr_args).1 0 data).1 ++
        ((bindOutputs lib (gatherInVals lib s.nr_args).2 (List.range s.nr_outputs)).1 ++
          [NCall.executeComputation]), ?_⟩
      simp [hbi, hbo]

/-- Claim C5: the shape range Execute registers for input argument 0 is
exactly min=[1,3,1,1], max=[1,3,1000,2000], opt=[1,3,960,1280] with rank 4,
the range is dimension-wise ordered min ≤ opt ≤ max, and the runtime shape
[1,3,960,1280] set immediately afterwards lies within [min, max] on every
dimension. -/
theorem c5_shape_range_registration :
    (∀ (lib : NativeLib) (s : ModelState) (data : List CBuffer), ∃ rest,
      (Execute lib s data).1 =
        NCall.setComputationItem ODLA_DYNAMIC_SHAPE ::
        NCall.setValueShapeInfo (lib.argHandle 0) ODLA_MIN_SHAPE input0_min_shape ::
        NCall.setValueShapeInfo (lib.argHandle 0) ODLA_MAX_SHAPE input0_max_shape ::
        NCall.setValueShapeInfo (lib.argHandle 0) ODLA_OPT_SHAPE input0_opt_shape ::
        NCall.createContext (lib.ctxHandle s.ctxCount) ::
        NCall.setRuntimeShape (lib.argHandle 0) input0_real_shape :: rest) ∧
    input0_min_shape = ⟨4, [1, 3, 1, 1, 0, 0, 0, 0, 0, 0]⟩ ∧
    input0_max_shape = ⟨4, [1, 3, 1000, 2000, 0, 0, 0, 0, 0, 0]⟩ ∧
    input0_opt_shape = ⟨4, [1, 3, 960, 1280, 0, 0, 0, 0, 0, 0]⟩ ∧
    input0_real_shape = ⟨4, [1, 3, 960, 1280, 0, 0, 0, 0, 0, 0]⟩ ∧
    shapeLeOn input0_min_shape input0_opt_shape 4 = true ∧
    shapeLeOn input0_opt_shape input0_max_shape 4 = true ∧
    shapeLeOn input0_min_shape input0_real_shape 4 = true ∧
    shapeLeOn input0_real_shape input0_max_shape 4 = true := by
  refine ⟨execute_trace_head, by decide, by decide, by decide, by decide,
    by decide, by decide, by decide, by decide⟩

/-- Claim C7: when at least one required argument or output of the context
has no bound buffer, the spec-modelled executor fails with NotReady, never
invokes the native runtime, and leaves the context (hence every output
buffer) unchanged. -/
theorem c7_not_ready_without_full_binding (run : Nat → List Nat) (c : SpecContext)
    (h : (∃ i, i < c.nrArgs ∧ c.argBound i = false) ∨
         (∃ j, j < c.nrOutputs ∧ c.outBound j = false)) :
    (specExecute run c).result = .error .NotReady ∧
    (specExecute run c).nativeInvoked = false ∧
    (specExecute run c).ctx = c := by
  have hne : ¬ fullyBound c = true := by
    intro htrue
    unfold fullyBound at htrue
    rw [Bool.and_eq_true] at htrue
    rcases h with ⟨i, hi, hb⟩ | ⟨j, hj, hb⟩
    · have := List.all_eq_true.mp htrue.1 i (List.mem_range.mpr hi)
      rw [hb] at this
      cases this
    · have := List.all_eq_true.mp htrue.2 j (List.mem_range.mpr hj)
      rw [hb] at this
      cases this
  unfold specExecute
  rw [if_neg hne]
  exact ⟨rfl, rfl, rfl⟩

/-- Witness for C7: a context with one argument bound and its single output
unbound fails with NotReady, without native invocation or context change. -/
theorem c7_not_ready_without_full_binding_witness :
    (specExecute (fun _ => []) specCtxW).result = .error .NotReady ∧
    (specExecute (fun _ => []) specCtxW).nativeInvoked = false ∧
    (specExecute (fun _ => []) specCtxW).ctx = specCtxW :=
  c7_not_ready_without_full_binding (fun _ => []) specCtxW
    (Or.inr ⟨0, by decide, rfl⟩)

/-- Claim C9: an output whose resolved runtime shape has logical length 0
gets the empty-product element count 1, and a successful Execute stores 1 as
its element count and allocates (and binds) a one-element, four-byte c_float
buffer for it rather than failing or allocating nothing. -/
theorem c9_size_zero_shape_one_element_buffer (lib : NativeLib) (s : ModelState)
    (data : List CBuffer) (idx : Nat)
    (h1 : 0 < s.nr_args) (h2 : s.nr_args ≤ data.length)
    (h3 : ∀ i, i < s.nr_outputs → 0 ≤ elemCount (lib.outRuntimeShape i))
    (h4 : idx < s.nr_outputs) (h5 : (lib.outRuntimeShape idx).size = 0) :
    elemCount (lib.outRuntimeShape idx) = 1 ∧
    ∃ s2 bufs, (Execute lib s data).2 = .ok (s2, bufs) ∧
      s2.out_vals[idx]?.map (fun v => v.2.2) = some 1 ∧
      bufs[s.buffers.length + idx]?.map (fun b => b.byteLen) = some 4 := by
  have hec : elemCount (lib.outRuntimeShape idx) = 1 := by
    simp [elemCount, h5]
  refine ⟨hec, _, _, execute_ok lib s data h1 h2 h3, ?_, ?_⟩
  · simp only [List.getElem?_map]
    rw [List.getElem?_range h4]
    simp [hec]
  · rw [List.getElem?_append_right (by simp [Nat.le_add_right])]
    have hidx : s.buffers.length + idx - s.buffers.length = idx := by omega
    rw [hidx]
    simp only [List.getElem?_map]
    rw [List.getElem?_range h4]
    simp [hec]



/-- Witness for C3 (amended): concrete two-run evaluation on libA. -/
theorem c3_buffers_accumulate_per_invocation_witness :
    ([(⟨140, [1, 2, 3, 4]⟩ : CBuffer)].length = libA.nrOutputs ∧
     ∃ fresh, [(⟨140, [1, 2, 3, 4]⟩ : CBuffer), ⟨140, [1, 2, 3, 4]⟩] =
       [(⟨140, [1, 2, 3, 4]⟩ : CBuffer)] ++ fresh ∧ fresh.length = libA.nrOutputs) :=
  c3_buffers_accumulate_per_invocation libA dataA execStateA1
    [⟨140, [1, 2, 3, 4]⟩] execStateA2 [⟨140, [1, 2, 3, 4]⟩, ⟨140, [1, 2, 3, 4]⟩]
    (by decide) (by decide) (by decide) rfl rfl

/-- Witness for C6: concrete two-run determinism evaluation on libA. -/
theorem c6_execute_deterministic_witness :
    [(⟨140, [1, 2, 3, 4]⟩ : CBuffer), ⟨140, [1, 2, 3, 4]⟩] =
      [(⟨140, [1, 2, 3, 4]⟩ : CBuffer)] ++ [⟨140, [1, 2, 3, 4]⟩] :=
  c6_execute_deterministic libA dataA execStateA1
    [⟨140, [1, 2, 3, 4]⟩] execStateA2 [⟨140, [1, 2, 3, 4]⟩, ⟨140, [1, 2, 3, 4]⟩]
    (by decide) (by decide) (by decide) rfl rfl

/-- Witness for C9: concrete evaluation on libC, whose single output has a
size-0 runtime shape. -/
theorem c9_size_zero_shape_one_element_buffer_witness :
    elemCount (libC.outRuntimeShape 0) = 1 ∧
    ∃ s2 bufs, (Execute libC loadedC dataA).2 = .ok (s2, bufs) ∧
      s2.out_vals[0]?.map (fun v => v.2.2) = some 1 ∧
      bufs[loadedC.buffers.length + 0]?.map (fun b => b.byteLen) = some 4 :=
  c9_size_zero_shape_one_element_buffer libC loadedC dataA 0
    (by decide) (by decide) (by decide) (by decide) (by decide)

/-- Claim C10: Execute reads data[idx] for every declared argument index
without checking the data length: with at least nr_args input buffers every
binding succeeds, pairing argument idx with data index idx in declared
order; with fewer buffers, Execute raises IndexError and the native
execute call never appears in the trace. -/
theorem c10_input_indexing (lib : NativeLib) (s : ModelState) (data : List CBuffer) :
    (s.nr_args ≤ data.length →
      bindInputs (gatherInVals lib s.nr_args).1 0 data =
        ((List.range s.nr_args).map (fun i => NCall.bindToArgument (lib.argHandle i) i),
         .ok ())) ∧
    (data.length < s.nr_args →
      (Execute lib s data).2 = .error .indexError ∧
      NCall.executeComputation ∉ (Execute lib s data).1) := by
  constructor
  · intro hlen
    have hbi := bindInputs_ok (fun i => (lib.argHandle i, lib.argType i)) data s.nr_args 0
      (by omega)
    rw [← List.range_eq_range'] at hbi
    simp only [] at hbi
    rw [gatherInVals_eq]
    exact hbi
  · intro hshort
    have hfail : (bindInputs (gatherInVals lib s.nr_args).1 0 data).2 =
        .error .indexError := by
      apply bindInputs_short data _ 0 (Nat.zero_le _)
      rw [gatherInVals_eq]
      simpa using hshort
    constructor
    · unfold Execute
      simp [hfail]
    · unfold Execute
      simp only [hfail]
      intro hmem
      rw [List.mem_append] at hmem
      cases hmem with
      | inl hpre => simp at hpre
      | inr hbind =>
        obtain ⟨v, i, hEq⟩ := bindInputs_trace_only_binds data _ 0 _ hbind
        cases hEq

/-- Witness for C10: libA binds its single argument from a one-buffer data
list, and fails with IndexError on an empty data list without reaching the
native execute call. -/
theorem c10_input_indexing_witness :
    (bindInputs (gatherInVals libA loadedA.nr_args).1 0 dataA =
      ((List.range loadedA.nr_args).map
        (fun i => NCall.bindToArgument (libA.argHandle i) i), .ok ())) ∧
    ((Execute libA loadedA []).2 = .error .indexError ∧
      NCall.executeComputation ∉ (Execute libA loadedA []).1) :=
  ⟨(c10_input_indexing libA loadedA dataA).1 (by decide),
   (c10_input_indexing libA loadedA []).2 (by decide)⟩

end Odla
